import Mathlib

/-!
# Shallow embedding of the chat WebSocket consumer (`chat/consumers.py`)

This file embeds the data model and the `ChatConsumer` handlers of the chat
backend in Lean 4 and proves properties about them.

Modelling conventions:
* Database rows (`User`, `Chat`, `Message`, `Attachment`, auth `Token`) are
  records in a `DB` structure of lists; `Model.objects.get(...)` is `List.find?`
  and a raised `DoesNotExist` is the `none` branch.
* A handler invocation is a pure function from the pre-state `DB` and the
  decoded inbound frame to an `Out` record holding: the post-state `DB`, the
  frames sent to the issuing session (`send_message` calls), the payloads
  handed to the channel layer's `group_send` (`send_chat_message` calls),
  whether `self.close()` was called, and an uncaught Python exception if
  one propagates.
* `transaction.atomic()` is modelled by building the candidate post-state and
  adopting it only when every step inside the block succeeds; on failure the
  pre-state is kept (rollback).
* The external blob store (`PrivateMediaStorage`, outside `src/`) is an
  oracle `blob_ok : Bool` saying whether its byte write succeeds, and
  `blob_locator` models the locator (`file.url`) it returns.
* Python machine-level behaviour that the handlers rely on is embedded
  explicitly: `bytes(x)` on a `str` raises `TypeError` (`pyBytes`),
  `os.path.splitext` (`splitext_ext`), and Django's `Paginator.get_page`
  page clamping (`paginator_get_page_number`).
-/

/-- Uncaught Python exceptions that can propagate out of a handler. -/
inductive PyErr where
  /-- `TypeError`, e.g. `bytes(s)` on a `str` without an encoding. -/
  | typeError
  /-- `ValueError`, e.g. `bytes(l)` with an item outside `0..255`. -/
  | valueError
  /-- `AttributeError`, e.g. `None.get(...)` when the `file` field is absent. -/
  | attributeError
  /-- Database `IntegrityError`, e.g. inserting NULL into a NOT NULL column. -/
  | integrityError
  /-- A failure raised by the external blob storage backend during a write. -/
  | storageError
  deriving Repr, DecidableEq

/-- The value of a JSON field that the code later passes to `bytes(...)`:
either a JSON string or an array of ints (the two shapes `file.data` can
take on the wire). -/
inductive PyData where
  | str (s : String)
  | byteList (l : List Nat)
  deriving Repr, DecidableEq

/-- Python `bytes(x)`: on a `str` it raises `TypeError` (no encoding
argument is given at the call site); on a list of ints it succeeds iff every
item is in `0..255`, else raises `ValueError`. -/
def pyBytes : PyData → Except PyErr (List Nat)
  | .str _ => .error .typeError
  | .byteList l => if l.all (fun b => b < 256) then .ok l else .error .valueError

/-- The extension of a filename without its leading dot:
`os.path.splitext(filename)[1][1:]`. `splitext` takes the suffix after the
last dot of the last path component, except when every character before that
dot (within the component) is itself a dot. -/
def splitext_ext (filename : String) : String :=
  let base := (filename.data.reverse.takeWhile (fun c => c ≠ '/')).reverse
  let rev := base.reverse
  let afterDot := rev.takeWhile (fun c => c ≠ '.')
  match rev.dropWhile (fun c => c ≠ '.') with
  | [] => ""
  | _ :: before =>
    if before.any (fun c => c ≠ '.') then String.mk afterDot.reverse else ""

/-- A row of the user table (`AUTH_USER_MODEL`); only the columns the
consumer reads. -/
structure UserRec where
  id : Nat
  email : String
  deriving Repr, DecidableEq

/-- A row of `chat_chat` (`Chat` model): `room_id` is the opaque external
identifier; `is_deleted` is the soft-delete flag (never consulted by the
consumer). -/
structure ChatRec where
  room_id : String
  is_deleted : Bool
  deriving Repr, DecidableEq

/-- A row of `chat_message` (`Message` model). `created_at` is the
`auto_now_add` timestamp, modelled as a logical clock value. -/
structure MessageRec where
  id : Nat
  author_id : Nat
  room_id : String
  text : String
  created_at : Nat
  viewed : Bool
  deriving Repr, DecidableEq

/-- A row of `chat_attachment` (`Attachment` model); `url` is the locator
`file.url` of the stored bytes. -/
structure AttachmentRec where
  message_id : Nat
  filename : String
  size : Nat
  url : String
  extension : String
  deriving Repr, DecidableEq

/-- A blob held by the external storage backend. -/
structure BlobRec where
  name : String
  content : List Nat
  deriving Repr, DecidableEq

/-- The persistent state the consumer touches: users, auth tokens
(`rest_framework.authtoken`), chats, messages, attachments, and the
external blob store's contents. `next_message_id` and `clock` model the
primary-key sequence and the `auto_now_add` timestamp source. -/
structure DB where
  users : List UserRec
  tokens : List (String × Nat)
  chats : List ChatRec
  messages : List MessageRec
  attachments : List AttachmentRec
  blobs : List BlobRec
  next_message_id : Nat
  clock : Nat
  deriving Repr, DecidableEq

/-- `User.objects.get(id=author_id)`: `none` is a raised
`User.DoesNotExist` (also when the `from` field was absent, i.e. `id=None`). -/
def findUser (db : DB) : Option Nat → Option UserRec
  | none => none
  | some i => db.users.find? (fun u => u.id = i)

/-- `Chat.objects.get(room_id=room_id)`: `none` is a raised
`Chat.DoesNotExist`. -/
def findChat (db : DB) : Option String → Option ChatRec
  | none => none
  | some r => db.chats.find? (fun c => c.room_id = r)

/-- `Token.objects.get(key=token)` resolving to the token's user id. -/
def findToken (db : DB) : Option String → Option Nat
  | none => none
  | some t => (db.tokens.find? (fun p => p.1 = t)).map (fun p => p.2)

/-- Reverse one-to-one access `message.chat_attachment`
(`hasattr(message, "chat_attachment")` is the `isSome` of this lookup). -/
def findAttachment (db : DB) (message_id : Nat) : Option AttachmentRec :=
  db.attachments.find? (fun a => a.message_id = message_id)

/-- The messages of a chat (`chat.messages`, the reverse FK manager). -/
def room_messages (db : DB) (room_id : String) : List MessageRec :=
  db.messages.filter (fun m => m.room_id = room_id)

/-- Insert into a list that is sorted by `created_at` descending. -/
def insert_desc (m : MessageRec) : List MessageRec → List MessageRec
  | [] => [m]
  | x :: xs =>
    if m.created_at ≤ x.created_at then x :: insert_desc m xs
    else m :: x :: xs

/-- `order_by("-created_at")`: the list sorted by `created_at` descending. -/
def order_by_created_at_desc : List MessageRec → List MessageRec
  | [] => []
  | x :: xs => insert_desc x (order_by_created_at_desc xs)

/-- The attachment sub-object of the message view. -/
structure AttachmentView where
  filename : String
  size : Nat
  url : String
  extension : String
  deriving Repr, DecidableEq

/-- The message view dict built by `message_to_json` (and duplicated inline
in `share_file`): `{id, author(email), content, timestamp, room_id,
attachment?}`. -/
structure MessageView where
  id : Nat
  author : String
  content : String
  timestamp : String
  room_id : String
  attachment : Option AttachmentView
  deriving Repr, DecidableEq

/-- Frames written to the issuing session's socket by `send_message`. -/
inductive Frame where
  /-- `{"command": "error", "message": message}` -/
  | error (message : String)
  /-- `{"command": "messages", "messages": messages, "max_pages": max_pages}` -/
  | messages (messages : List MessageView) (max_pages : Nat)
  deriving Repr, DecidableEq

/-- The payload handed to `group_send` by `send_chat_message` (minus the
routing key `"type": "chat_message"`). In `share_file` the dict also
carries the full `User` object under `"author"`; `new_message` omits it. -/
structure GroupMsg where
  command : String
  author_obj : Option UserRec
  message : MessageView
  deriving Repr, DecidableEq

/-- `self.room_group_name = f"chat_{self.room_name}"`, where `room_name` is
the `room_id` URL kwarg the connection was opened with. -/
def room_group_name (room_name : String) : String :=
  "chat_" ++ room_name

/-- The channel layer's group membership: `(group name, session)` pairs
added by `group_add` on connect. -/
def group_members (reg : List (String × Nat)) (g : String) : List Nat :=
  (reg.filter (fun p => p.1 = g)).map (fun p => p.2)

/-- The channel layer's fan-out: `group_send` delivers the payload to every
session currently joined to the named group. -/
def group_send (reg : List (String × Nat)) (g : String) (payload : GroupMsg) :
    List (Nat × GroupMsg) :=
  (group_members reg g).map (fun s => (s, payload))

/-- The per-session group handler `chat_message`: each joined session
forwards `event["message"]` to its own socket. -/
def chat_message (event : GroupMsg) : MessageView :=
  event.message

/-- The observable outcome of handling one inbound frame: post-state,
frames sent to the issuing session, `(group name, payload)` pairs handed to
`group_send`, whether the connection was closed, and an uncaught exception
if one propagated. -/
structure Out where
  db : DB
  sent : List Frame
  broadcasts : List (String × GroupMsg)
  closed : Bool
  raised : Option PyErr
  deriving Repr, DecidableEq

/-- Outcome with no observable effect. -/
def Out.idle (db : DB) : Out :=
  { db := db, sent := [], broadcasts := [], closed := false, raised := none }

/-- Outcome that only sends frames to the issuing session. -/
def Out.send (db : DB) (frames : List Frame) : Out :=
  { db := db, sent := frames, broadcasts := [], closed := false, raised := none }

/-- Outcome that only closes the connection. -/
def Out.close (db : DB) : Out :=
  { db := db, sent := [], broadcasts := [], closed := true, raised := none }

/-- Outcome of an uncaught exception propagating out of the handler. -/
def Out.raise (db : DB) (e : PyErr) : Out :=
  { db := db, sent := [], broadcasts := [], closed := false, raised := some e }

/-- The `file` sub-object of a `share_file` frame:
`{filename, size, data}`. -/
structure FileDesc where
  filename : String
  size : Nat
  data : PyData
  deriving Repr, DecidableEq

/-- A decoded inbound JSON frame. `command` is `data.get("command", "")`;
every other field is `data.get(...)`, `none` when absent. `author_id`
models the wire field `"from"`. -/
structure InData where
  command : String
  token : Option String
  room_id : Option String
  page_number : Option Int
  author_id : Option Nat
  message : Option String
  file : Option FileDesc
  deriving Repr, DecidableEq

/-- An inbound frame with no fields set. -/
def InData.empty : InData :=
  { command := "", token := none, room_id := none, page_number := none,
    author_id := none, message := none, file := none }

/-- Django `Paginator.num_pages` with the default
`allow_empty_first_page=True`, `orphans=0`:
`ceil(max(1, count) / per_page)`. -/
def paginator_num_pages (count per_page : Nat) : Nat :=
  (max 1 count + per_page - 1) / per_page

/-- Django `Paginator.validate_number` on an `int` argument: numbers below 1
and numbers above `num_pages` raise `EmptyPage` (`.error`), except page 1 of
an empty paginator, which is allowed. -/
def paginator_validate_number (count per_page : Nat) (number : Int) : Except Unit Int :=
  if number < 1 then .error ()
  else if number > (paginator_num_pages count per_page : Int) then
    if number = 1 then .ok number else .error ()
  else .ok number

/-- Django `Paginator.get_page` page selection: an `EmptyPage` error falls
back to the last page (`num_pages`); a valid number is used as is. -/
def paginator_get_page_number (count per_page : Nat) (number : Int) : Nat :=
  match paginator_validate_number count per_page number with
  | .ok n => n.toNat
  | .error _ => paginator_num_pages count per_page

/-- Django `Paginator.page` slicing: `object_list[(n-1)*per_page : n*per_page]`. -/
def paginator_page_slice (object_list : List MessageRec) (per_page n : Nat) :
    List MessageRec :=
  (object_list.drop ((n - 1) * per_page)).take per_page

/-- `ChatConsumer._get_paginated_data(chat, page_number, messages_per_page)`:
paginates the chat's messages ordered newest first via
`Paginator.get_page`, and computes
`max_pages = math.ceil(paginator.count / paginator.per_page)`.
The source's `messages_per_page` parameter defaults to `20`, and
`fetch_messages` always calls it with that default. -/
def _get_paginated_data (db : DB) (chat : ChatRec) (page_number : Int)
    (messages_per_page : Nat) : List MessageRec × Nat :=
  let object_list := order_by_created_at_desc (room_messages db chat.room_id)
  let n := paginator_get_page_number object_list.length messages_per_page page_number
  let page := paginator_page_slice object_list messages_per_page n
  let max_pages := (object_list.length + messages_per_page - 1) / messages_per_page
  (page, max_pages)

/-- `ChatConsumer.message_to_json(message)`: the message view, with the
`attachment` sub-object present iff the message owns an attachment row.
The author FK is dereferenced for the email. -/
def message_to_json (db : DB) (m : MessageRec) : MessageView :=
  { id := m.id,
    author := match findUser db (some m.author_id) with
      | some u => u.email
      | none => "",
    content := m.text,
    timestamp := toString m.created_at,
    room_id := m.room_id,
    attachment := match findAttachment db m.id with
      | some a => some { filename := a.filename, size := a.size,
                         url := a.url, extension := a.extension }
      | none => none }

/-- `ChatConsumer.fetch_messages(data)`: resolve the chat by `room_id`
(missing → the scoped `"Chat room not found."` error frame), else reply
with the requested page (page size 20) and `max_pages`. Read-only. -/
def fetch_messages (db : DB) (d : InData) : Out :=
  let page_number : Int := (d.page_number).getD 1
  match findChat db d.room_id with
  | none => Out.send db [Frame.error "Chat room not found."]
  | some chat =>
    let r := _get_paginated_data db chat page_number 20
    Out.send db [Frame.messages (r.1.map (message_to_json db)) r.2]

/-- `ChatConsumer.new_message(data)`: resolve the author (missing →
`"Author not found."`), then the chat (missing → `"Chat room not found."`),
create the `Message` row, and broadcast
`{"command": "new_message", "message": message_to_json(message)}` to
`self.room_group_name` — the group of the connection's URL room
(`room_name`), not of the frame's `room_id`. A missing `message` field
inserts NULL into the NOT NULL `text` column, raising `IntegrityError`. -/
def new_message (db : DB) (room_name : String) (d : InData) : Out :=
  match findUser db d.author_id with
  | none => Out.send db [Frame.error "Author not found."]
  | some author =>
    match findChat db d.room_id with
    | none => Out.send db [Frame.error "Chat room not found."]
    | some chat =>
      match d.message with
      | none => Out.raise db .integrityError
      | some text =>
        let msg : MessageRec :=
          { id := db.next_message_id, author_id := author.id,
            room_id := chat.room_id, text := text,
            created_at := db.clock, viewed := false }
        let db' : DB :=
          { db with messages := db.messages ++ [msg],
                    next_message_id := db.next_message_id + 1,
                    clock := db.clock + 1 }
        { db := db', sent := [],
          broadcasts := [(room_group_name room_name,
            { command := "new_message", author_obj := none,
              message := message_to_json db' msg })],
          closed := false, raised := none }

/-- `str(e)` for a raised `User.DoesNotExist`. -/
def userDoesNotExistMsg : String := "User matching query does not exist."

/-- `str(e)` for a raised `Chat.DoesNotExist`. -/
def chatDoesNotExistMsg : String := "Chat matching query does not exist."

/-- Modelled from the spec: the external blob store's `save(bytes, name)`
returns a locator for the stored bytes (`get_rename` /
`PrivateMediaStorage`, outside `src/`, build it under `chat_files/`). -/
def blob_locator (filename : String) : String :=
  "chat_files/" ++ filename

/-- The validation run by `MessageSerializer(data=...).is_valid()` on the
round-tripped data in `share_file`. Declared fields are
`(author, text, created_at, viewed)`: `author` is a required
primary-key-related field (valid iff the pk exists), `text` a required
non-blank char field, `created_at` is read-only (`auto_now_add`) and
`viewed` has a model default, so neither is validated on input. -/
def messageSerializer_is_valid (db : DB) (author_id : Nat) (text : String) : Bool :=
  (findUser db (some author_id)).isSome && text ≠ ""

/-- `ChatConsumer.share_file(data)`. Reads the `file` sub-object (absent →
`AttributeError` from `None.get`), resolves author then chat — on either
`DoesNotExist` it sends `str(e)` as the error message — decodes the payload
with `bytes(file_content)`, then inside `transaction.atomic()` creates the
`Message` and `Attachment` rows and writes the bytes to the blob store
(outcome given by the `blob_ok` oracle; a raised storage error rolls the
whole transaction back). After commit it round-trips the message through
`MessageSerializer` and, if valid, broadcasts
`{"command": "new_message", "author": author_user, "message": json_data}`
with the attachment sub-object built inline, to `self.room_group_name`
(the connection's URL room group). -/
def share_file (db : DB) (room_name : String) (blob_ok : Bool) (d : InData) : Out :=
  match d.file with
  | none => Out.raise db .attributeError
  | some fd =>
    match findUser db d.author_id with
    | none => Out.send db [Frame.error userDoesNotExistMsg]
    | some author =>
      match findChat db d.room_id with
      | none => Out.send db [Frame.error chatDoesNotExistMsg]
      | some chat =>
        match pyBytes fd.data with
        | .error e => Out.raise db e
        | .ok file_bytes =>
          if blob_ok then
            let msg : MessageRec :=
              { id := db.next_message_id, author_id := author.id,
                room_id := chat.room_id, text := "File: " ++ fd.filename,
                created_at := db.clock, viewed := false }
            let att : AttachmentRec :=
              { message_id := msg.id, filename := fd.filename, size := fd.size,
                url := blob_locator fd.filename,
                extension := splitext_ext fd.filename }
            let db' : DB :=
              { db with messages := db.messages ++ [msg],
                        attachments := db.attachments ++ [att],
                        blobs := db.blobs ++ [⟨fd.filename, file_bytes⟩],
                        next_message_id := db.next_message_id + 1,
                        clock := db.clock + 1 }
            if messageSerializer_is_valid db' msg.author_id msg.text then
              let json_data : MessageView :=
                { id := msg.id, author := author.email, content := msg.text,
                  timestamp := toString msg.created_at, room_id := chat.room_id,
                  attachment := some { filename := att.filename, size := att.size,
                                       url := att.url, extension := att.extension } }
              { db := db', sent := [],
                broadcasts := [(room_group_name room_name,
                  { command := "new_message", author_obj := some author,
                    message := json_data })],
                closed := false, raised := none }
            else
              { db := db', sent := [], broadcasts := [],
                closed := false, raised := none }
          else Out.raise db .storageError

/-- `ChatConsumer.handle_commands(command, data)`: dispatch on the command
string; the trailing `else` sends `"Invalid command."` (only reachable if a
caller passed a command outside the three `receive` routes here). -/
def handle_commands (db : DB) (room_name : String) (blob_ok : Bool) (d : InData) : Out :=
  if d.command = "fetch_messages" then fetch_messages db d
  else if d.command = "new_message" then new_message db room_name d
  else if d.command = "share_file" then share_file db room_name blob_ok d
  else Out.send db [Frame.error "Invalid command."]

/-- `ChatConsumer.authenticate_user(token)`: resolve the token and bind
`scope["user"]`; an unknown token sends `"Invalid token."` and closes.
Returns the outcome and the session's (possibly updated) user binding. -/
def authenticate_user (db : DB) (user : Option Nat) (token : Option String) :
    Out × Option Nat :=
  match findToken db token with
  | some uid => (Out.idle db, some uid)
  | none =>
    ({ db := db, sent := [Frame.error "Invalid token."], broadcasts := [],
       closed := true, raised := none }, user)

/-- `ChatConsumer.receive(text_data)`: decode, read `command`;
`set_token` authenticates; `fetch_messages` / `new_message` / `share_file`
dispatch to `handle_commands` when `scope["user"].is_authenticated`, else
close the connection; any other command falls through both branches and
does nothing. `user` is the session's current `scope["user"]` binding
(`none` = `AnonymousUser`). -/
def receive (db : DB) (room_name : String) (blob_ok : Bool) (user : Option Nat)
    (d : InData) : Out × Option Nat :=
  if d.command = "set_token" then
    authenticate_user db user d.token
  else if d.command = "fetch_messages" ∨ d.command = "new_message" ∨
      d.command = "share_file" then
    if user.isSome then (handle_commands db room_name blob_ok d, user)
    else (Out.close db, user)
  else (Out.idle db, user)

/-! ## Concrete fixtures

Small closed states and frames used to evaluate the handlers at concrete
inputs (witnesses and counterexamples). -/

/-- A user on file. -/
def aliceU : UserRec := { id := 1, email := "alice@example.com" }

/-- A chat room on file. -/
def roomW : ChatRec := { room_id := "room-1", is_deleted := false }

/-- A state with one user, one token and one empty chat room. -/
def dbW : DB :=
  { users := [aliceU], tokens := [("tok1", 1)], chats := [roomW],
    messages := [], attachments := [], blobs := [],
    next_message_id := 1, clock := 0 }

/-- A stored message in `room-1`. -/
def msg0 : MessageRec :=
  { id := 0, author_id := 1, room_id := "room-1", text := "hi",
    created_at := 0, viewed := false }

/-- `dbW` with one message stored in `room-1`. -/
def dbMsg : DB := { dbW with messages := [msg0], next_message_id := 1, clock := 1 }

/-- The view of `msg0` as `message_to_json` renders it. -/
def msg0View : MessageView :=
  { id := 0, author := "alice@example.com", content := "hi",
    timestamp := "0", room_id := "room-1", attachment := none }

/-- An authenticated frame with an unrecognized command string. -/
def bogusIn : InData := { InData.empty with command := "bogus" }

/-- A `fetch_messages` frame for `room-1`, page 5. -/
def fetchPage5In : InData :=
  { InData.empty with
    command := "fetch_messages"
    room_id := some "room-1"
    page_number := some 5 }

/-- A `new_message` frame whose author and room are both unknown. -/
def orphanIn : InData :=
  { InData.empty with
    command := "new_message"
    author_id := some 99
    room_id := some "no-room"
    message := some "hi" }

/-- A well-formed file sub-object with raw byte data. -/
def fdBytes : FileDesc :=
  { filename := "doc.pdf", size := 3, data := PyData.byteList [1, 2, 3] }

/-- A file sub-object whose `data` is a JSON string (the documented
base64-string encoding). -/
def fdStr : FileDesc :=
  { filename := "doc.pdf", size := 3, data := PyData.str "AAEC" }

/-- A `share_file` frame from the known author into the known room,
carrying byte data. -/
def shareOkIn : InData :=
  { InData.empty with
    command := "share_file"
    author_id := some 1
    room_id := some "room-1"
    file := some fdBytes }

/-- A `share_file` frame from the known author into an unknown room. -/
def shareNoRoomIn : InData :=
  { InData.empty with
    command := "share_file"
    author_id := some 1
    room_id := some "no-room"
    file := some fdBytes }

/-- A `share_file` frame whose `file.data` is a string. -/
def shareStrIn : InData :=
  { InData.empty with
    command := "share_file"
    author_id := some 1
    room_id := some "room-1"
    file := some fdStr }

/-- A channel-layer membership with one session (7) joined to `room-1`'s
group. -/
def regRoom1 : List (String × Nat) := [(room_group_name "room-1", 7)]

/-! ## Supporting lemmas -/

theorem length_insert_desc (m : MessageRec) (l : List MessageRec) :
    (insert_desc m l).length = l.length + 1 := by
  induction l with
  | nil => rfl
  | cons x xs ih =>
    unfold insert_desc
    by_cases h : m.created_at ≤ x.created_at
    · simp [h, ih]
    · simp [h]

theorem length_order_by_created_at_desc (l : List MessageRec) :
    (order_by_created_at_desc l).length = l.length := by
  induction l with
  | nil => rfl
  | cons x xs ih => simp [order_by_created_at_desc, length_insert_desc, ih]

theorem find_user_self (db : DB) (i : Option Nat) (u : UserRec)
    (h : findUser db i = some u) : findUser db (some u.id) = some u := by
  cases i with
  | none => exact absurd h (by simp [findUser])
  | some n =>
    have hn : u.id = n := by
      have := List.find?_some h
      simpa using this
    rw [findUser, hn]
    exact h

theorem file_text_ne_empty (s : String) : ("File: " ++ s) ≠ "" := by
  intro h
  have hlen := congrArg String.length h
  rw [String.length_append, String.length_empty] at hlen
  have h6 : "File: ".length = 6 := rfl
  omega

theorem messageSerializer_is_valid_of (db : DB) (author : UserRec) (t : String)
    (h : findUser db (some author.id) = some author) (ht : t ≠ "") :
    messageSerializer_is_valid db author.id t = true := by
  simp [messageSerializer_is_valid, h, ht]

theorem get_page_number_overflow (count : Nat) (p : Int)
    (h1 : 1 ≤ count) (h2 : (((count + 20 - 1) / 20 : Nat) : Int) < p) :
    paginator_get_page_number count 20 p = (count + 20 - 1) / 20 := by
  have hval : paginator_validate_number count 20 p = .error () := by
    unfold paginator_validate_number paginator_num_pages
    rw [Nat.max_eq_right h1]
    rw [if_neg (by omega), if_pos (by omega), if_neg (by omega)]
  unfold paginator_get_page_number
  rw [hval]
  unfold paginator_num_pages
  rw [Nat.max_eq_right h1]

/-! ## Claim theorems -/

/-- C5: a session that is not authenticated (`scope["user"]` is anonymous)
receiving `fetch_messages`, `new_message` or `share_file` is closed
immediately, with no frame sent, nothing broadcast, and the state
unchanged. -/
theorem unauthenticated_command_closes_silently
    (db : DB) (room_name : String) (blob_ok : Bool) (d : InData)
    (h : d.command = "fetch_messages" ∨ d.command = "new_message" ∨
      d.command = "share_file") :
    receive db room_name blob_ok none d = (Out.close db, none) := by
  rcases h with h | h | h <;>
    · unfold receive
      rw [if_neg (by rw [h]; decide), if_pos (by tauto)]
      rfl

/-- Witness for C5: an unauthenticated session sends `fetch_messages` for
an existing room; the session is closed and no response frame is sent. -/
theorem unauthenticated_command_closes_silently_witness :
    (fetchPage5In.command = "fetch_messages" ∨
      fetchPage5In.command = "new_message" ∨
      fetchPage5In.command = "share_file") ∧
    receive dbMsg "room-1" true none fetchPage5In = (Out.close dbMsg, none) :=
  ⟨Or.inl rfl,
    unauthenticated_command_closes_silently dbMsg "room-1" true fetchPage5In
      (Or.inl rfl)⟩

/-- C2 (counterexample): an authenticated session sends the unrecognized
command `"bogus"`. The claim says the session receives
`{command:"error", message:"Invalid command."}`; in fact `receive` routes
only the three known data commands to `handle_commands`, so nothing at all
is sent (and the connection stays open). -/
theorem unknown_command_counterexample :
    (receive dbW "room-1" true (some 1) bogusIn).1.sent = [] ∧
    (receive dbW "room-1" true (some 1) bogusIn).1 ≠
      Out.send dbW [Frame.error "Invalid command."] ∧
    (receive dbW "room-1" true (some 1) bogusIn).1.closed = false := by
  decide

/-- C2 (amended): an inbound frame carrying a command string that is none of
`set_token`, `fetch_messages`, `new_message`, `share_file`, received while
the session is authenticated, is silently ignored: no frame is sent (in
particular not the `"Invalid command."` error, whose `handle_commands`
branch is unreachable from `receive`), nothing is broadcast, the state is
unchanged and the connection stays open. -/
theorem unknown_command_silently_ignored
    (db : DB) (room_name : String) (blob_ok : Bool) (user : Option Nat)
    (d : InData) (_hauth : user.isSome = true)
    (h1 : d.command ≠ "set_token") (h2 : d.command ≠ "fetch_messages")
    (h3 : d.command ≠ "new_message") (h4 : d.command ≠ "share_file") :
    receive db room_name blob_ok user d = (Out.idle db, user) := by
  unfold receive
  rw [if_neg h1, if_neg (by tauto)]

/-- Witness for C2 (amended): the authenticated session issuing `"bogus"`
observes no effect. -/
theorem unknown_command_silently_ignored_witness :
    ((some 1 : Option Nat).isSome = true ∧ bogusIn.command ≠ "set_token" ∧
      bogusIn.command ≠ "fetch_messages" ∧ bogusIn.command ≠ "new_message" ∧
      bogusIn.command ≠ "share_file") ∧
    receive dbW "room-1" true (some 1) bogusIn = (Out.idle dbW, some 1) :=
  ⟨⟨rfl, by decide, by decide, by decide, by decide⟩,
    unknown_command_silently_ignored dbW "room-1" true (some 1) bogusIn rfl
      (by decide) (by decide) (by decide) (by decide)⟩

/-- C9: `new_message` resolves the author before the room, so when both the
author id and the room id are unknown the issuing session receives only the
`"Author not found."` error frame and never `"Chat room not found."`. -/
theorem new_message_author_resolved_first
    (db : DB) (room_name : String) (d : InData)
    (hu : findUser db d.author_id = none)
    (_hc : findChat db d.room_id = none) :
    new_message db room_name d = Out.send db [Frame.error "Author not found."] ∧
    Frame.error "Chat room not found." ∉ (new_message db room_name d).sent := by
  have he : new_message db room_name d
      = Out.send db [Frame.error "Author not found."] := by
    unfold new_message
    rw [hu]
  refine ⟨he, ?_⟩
  rw [he]
  intro hmem
  rw [Out.send] at hmem
  simp only [List.mem_singleton, Frame.error.injEq] at hmem
  exact absurd (congrArg String.length hmem) (by decide)

/-- Witness for C9: a `new_message` whose author id (99) and room id
(`no-room`) are both unknown yields exactly the author error. -/
theorem new_message_author_resolved_first_witness :
    (findUser dbW orphanIn.author_id = none ∧
      findChat dbW orphanIn.room_id = none) ∧
    (new_message dbW "room-1" orphanIn
        = Out.send dbW [Frame.error "Author not found."] ∧
      Frame.error "Chat room not found." ∉
        (new_message dbW "room-1" orphanIn).sent) :=
  ⟨⟨by decide, by decide⟩,
    new_message_author_resolved_first dbW "room-1" orphanIn (by decide)
      (by decide)⟩

/-- C6 (counterexample): an authenticated `new_message` whose `room_id`
matches no existing chat, but whose author id is also unknown, receives
`"Author not found."` — not the `"Chat room not found."` frame the claim
promises for every such command. -/
theorem new_message_room_not_found_counterexample :
    findChat dbW orphanIn.room_id = none ∧
    (new_message dbW "room-1" orphanIn).sent = [Frame.error "Author not found."] ∧
    (new_message dbW "room-1" orphanIn).sent ≠
      [Frame.error "Chat room not found."] := by
  decide

/-- C6 (amended): for every authenticated `new_message` command whose
author resolves and whose `room_id` matches no existing chat, the issuing
session receives exactly `{command:"error", message:"Chat room not found."}`,
no `Message` row is created, no broadcast occurs and the connection stays
open (state unchanged on error). -/
theorem new_message_room_not_found
    (db : DB) (room_name : String) (d : InData) (author : UserRec)
    (hu : findUser db d.author_id = some author)
    (hc : findChat db d.room_id = none) :
    new_message db room_name d
      = Out.send db [Frame.error "Chat room not found."] := by
  unfold new_message
  rw [hu, hc]

/-- Witness for C6 (amended): author 1 exists, room `no-room` does not; the
handler replies with the room error and leaves the state untouched
(`Out.send` keeps `db`, sends nothing else, broadcasts nothing). -/
theorem new_message_room_not_found_witness :
    (findUser dbW (some 1) = some aliceU ∧
      findChat dbW (some "no-room") = none) ∧
    new_message dbW "room-1"
        { InData.empty with
          command := "new_message"
          author_id := some 1
          room_id := some "no-room"
          message := some "hi" }
      = Out.send dbW [Frame.error "Chat room not found."] :=
  ⟨⟨by decide, by decide⟩,
    new_message_room_not_found dbW "room-1"
      { InData.empty with
        command := "new_message"
        author_id := some 1
        room_id := some "no-room"
        message := some "hi" }
      aliceU (by decide) (by decide)⟩

/-- C4 (counterexample): a `share_file` whose author resolves but whose room
does not. The claim says the handler sends the same scoped error frame as
`new_message` (`"Chat room not found."`); in fact the `except` block sends
`str(e)` — the Django exception text `"Chat matching query does not
exist."`. -/
theorem share_file_scoped_error_counterexample :
    findUser dbW shareNoRoomIn.author_id = some aliceU ∧
    findChat dbW shareNoRoomIn.room_id = none ∧
    (share_file dbW "room-1" true shareNoRoomIn).sent
      = [Frame.error chatDoesNotExistMsg] ∧
    (share_file dbW "room-1" true shareNoRoomIn).sent
      ≠ [Frame.error "Chat room not found."] ∧
    (share_file dbW "room-1" true shareNoRoomIn).sent
      ≠ [Frame.error "Author not found."] := by
  decide

/-- C4 (amended): for every `share_file` command carrying a `file` object
whose author id or room id does not resolve, the handler sends a single
error frame to the issuing session whose message is the exception text
`str(e)` (`"User matching query does not exist."` /
`"Chat matching query does not exist."`), not the scoped
`"Author not found."` / `"Chat room not found."` messages of `new_message`;
there is no broadcast, no row is written, and the connection stays open. -/
theorem share_file_not_found_sends_exception_text
    (db : DB) (room_name : String) (blob_ok : Bool) (d : InData) (fd : FileDesc)
    (hf : d.file = some fd)
    (h : findUser db d.author_id = none ∨ findChat db d.room_id = none) :
    ∃ m, share_file db room_name blob_ok d = Out.send db [Frame.error m] ∧
      (m = userDoesNotExistMsg ∨ m = chatDoesNotExistMsg) ∧
      m ≠ "Author not found." ∧ m ≠ "Chat room not found." := by
  cases hu : findUser db d.author_id with
  | none =>
    refine ⟨userDoesNotExistMsg, ?_, Or.inl rfl, by decide, by decide⟩
    unfold share_file
    rw [hf, hu]
  | some author =>
    have hc : findChat db d.room_id = none := by
      rcases h with h | h
      · exact absurd hu (by rw [h]; exact fun hx => Option.noConfusion hx)
      · exact h
    refine ⟨chatDoesNotExistMsg, ?_, Or.inr rfl, by decide, by decide⟩
    unfold share_file
    rw [hf, hu, hc]

/-- Witness for C4 (amended): the `share_file` into the unknown room
`no-room` sends exactly the chat exception text and nothing else. -/
theorem share_file_not_found_sends_exception_text_witness :
    (shareNoRoomIn.file = some fdBytes ∧
      findChat dbW shareNoRoomIn.room_id = none) ∧
    (∃ m, share_file dbW "room-1" true shareNoRoomIn
        = Out.send dbW [Frame.error m] ∧
      (m = userDoesNotExistMsg ∨ m = chatDoesNotExistMsg) ∧
      m ≠ "Author not found." ∧ m ≠ "Chat room not found.") :=
  ⟨⟨rfl, by decide⟩,
    share_file_not_found_sends_exception_text dbW "room-1" true shareNoRoomIn
      fdBytes rfl (Or.inr (by decide))⟩

/-- C7: when the blob-store write inside `share_file`'s
`transaction.atomic()` block fails (`blob_ok = false`, reached after author
and room resolved and the payload decoded), the whole transaction rolls
back: the handler raises the storage error with the state exactly as
before, so no `Message` row, no `Attachment` row and no blob created by
that attempt exists afterwards, and nothing is sent or broadcast. -/
theorem share_file_blob_failure_rolls_back
    (db : DB) (room_name : String) (d : InData) (fd : FileDesc)
    (author : UserRec) (chat : ChatRec) (bs : List Nat)
    (hf : d.file = some fd)
    (hu : findUser db d.author_id = some author)
    (hc : findChat db d.room_id = some chat)
    (hb : pyBytes fd.data = .ok bs) :
    share_file db room_name false d = Out.raise db .storageError ∧
    (share_file db room_name false d).db.messages = db.messages ∧
    (share_file db room_name false d).db.attachments = db.attachments ∧
    (share_file db room_name false d).broadcasts = [] := by
  have he : share_file db room_name false d = Out.raise db .storageError := by
    simp only [share_file, hf, hu, hc, hb]
    rfl
  refine ⟨he, ?_, ?_, ?_⟩ <;> rw [he] <;> rfl

/-- Witness for C7: the well-formed `share_file` into `room-1` with a
failing blob write leaves `dbW` unchanged. -/
theorem share_file_blob_failure_rolls_back_witness :
    (shareOkIn.file = some fdBytes ∧
      findUser dbW shareOkIn.author_id = some aliceU ∧
      findChat dbW shareOkIn.room_id = some roomW ∧
      pyBytes fdBytes.data = .ok [1, 2, 3]) ∧
    (share_file dbW "room-1" false shareOkIn = Out.raise dbW .storageError ∧
      (share_file dbW "room-1" false shareOkIn).db.messages = dbW.messages ∧
      (share_file dbW "room-1" false shareOkIn).db.attachments
        = dbW.attachments ∧
      (share_file dbW "room-1" false shareOkIn).broadcasts = []) :=
  ⟨⟨rfl, by decide, by decide, rfl⟩,
    share_file_blob_failure_rolls_back dbW "room-1" shareOkIn fdBytes aliceU
      roomW [1, 2, 3] rfl (by decide) (by decide) rfl⟩

/-- C10: when `file.data` is a JSON string (the encoding the source's own
comment documents: "Assuming base64 encoded string"), the decode step
`bytes(file_content)` raises `TypeError` — after the author and the room
have resolved, before the persistence transaction begins — so no `Message`
or `Attachment` row is created, nothing is sent, and no broadcast occurs. -/
theorem share_file_string_data_raises_type_error
    (db : DB) (room_name : String) (blob_ok : Bool) (d : InData)
    (fd : FileDesc) (s : String) (author : UserRec) (chat : ChatRec)
    (hf : d.file = some fd) (hs : fd.data = PyData.str s)
    (hu : findUser db d.author_id = some author)
    (hc : findChat db d.room_id = some chat) :
    share_file db room_name blob_ok d = Out.raise db .typeError := by
  simp only [share_file, hf, hu, hc, hs]
  rfl

/-- Witness for C10: the `share_file` whose `file.data` is the string
`"AAEC"` raises `TypeError` with the state untouched. -/
theorem share_file_string_data_raises_type_error_witness :
    (shareStrIn.file = some fdStr ∧ fdStr.data = PyData.str "AAEC" ∧
      findUser dbW shareStrIn.author_id = some aliceU ∧
      findChat dbW shareStrIn.room_id = some roomW) ∧
    share_file dbW "room-1" true shareStrIn = Out.raise dbW .typeError :=
  ⟨⟨rfl, rfl, by decide, by decide⟩,
    share_file_string_data_raises_type_error dbW "room-1" true shareStrIn
      fdStr "AAEC" aliceU roomW rfl rfl (by decide) (by decide)⟩

/-- C1 (counterexample): a session connected with URL room `room-2` issues a
`share_file` whose author and room (`room-1`) resolve and whose transaction
commits. The claim says the frame is broadcast to every session joined to
that room; in fact `send_chat_message` targets `self.room_group_name` — the
URL room's group `chat_room-2` — so session 7, joined to `room-1`'s group,
receives nothing. -/
theorem share_file_broadcast_room_counterexample :
    (share_file dbW "room-2" true shareOkIn).raised = none ∧
    (share_file dbW "room-2" true shareOkIn).db.messages ≠ dbW.messages ∧
    ((share_file dbW "room-2" true shareOkIn).broadcasts.map Prod.fst)
      = [room_group_name "room-2"] ∧
    room_group_name "room-2" ≠ room_group_name "room-1" ∧
    7 ∈ group_members regRoom1 (room_group_name "room-1") ∧
    ((share_file dbW "room-2" true shareOkIn).broadcasts.map
        (fun p => group_send regRoom1 p.1 p.2)) = [[]] := by
  decide

/-- C1 (amended): for every `share_file` command whose author and room
resolve and whose persistence transaction commits, the handler
unconditionally broadcasts a single
`{command:"new_message", message: <message_view_with_attachment>}` payload
— delivered to every session joined to the group it targets — but the
targeted group is `chat_<room_name>` of the issuing connection's URL room,
which is the persisted message's room only when the frame's `room_id`
names the connection's URL room. -/
theorem share_file_commit_broadcasts_to_url_room
    (db : DB) (room_name : String) (d : InData) (fd : FileDesc)
    (author : UserRec) (chat : ChatRec) (bs : List Nat)
    (hf : d.file = some fd)
    (hu : findUser db d.author_id = some author)
    (hc : findChat db d.room_id = some chat)
    (hb : pyBytes fd.data = .ok bs) :
    (share_file db room_name true d).raised = none ∧
    (share_file db room_name true d).closed = false ∧
    (share_file db room_name true d).sent = [] ∧
    ∃ view : MessageView,
      (share_file db room_name true d).broadcasts =
        [(room_group_name room_name,
          { command := "new_message", author_obj := some author,
            message := view })] ∧
      view.attachment.isSome = true ∧
      ∀ reg : List (String × Nat),
        ∀ s ∈ group_members reg (room_group_name room_name),
          (s, ({ command := "new_message", author_obj := some author,
                 message := view } : GroupMsg)) ∈
            group_send reg (room_group_name room_name)
              { command := "new_message", author_obj := some author,
                message := view } := by
  have hself : findUser db (some author.id) = some author :=
    find_user_self db d.author_id author hu
  have hne := file_text_ne_empty fd.filename
  simp only [share_file, hf, hu, hc, hb, if_true]
  split
  · refine ⟨rfl, rfl, rfl, _, rfl, rfl, ?_⟩
    intro reg s hs
    exact List.mem_map.mpr ⟨s, hs, rfl⟩
  · next hinvalid =>
      exact absurd (messageSerializer_is_valid_of _ author _ hself hne) hinvalid

/-- Witness for C1 (amended): the well-formed `share_file` into `room-1`
from a connection whose URL room is also `room-1` commits and broadcasts
one `new_message` payload with an attachment view to `chat_room-1`. -/
theorem share_file_commit_broadcasts_to_url_room_witness :
    (shareOkIn.file = some fdBytes ∧
      findUser dbW shareOkIn.author_id = some aliceU ∧
      findChat dbW shareOkIn.room_id = some roomW ∧
      pyBytes fdBytes.data = .ok [1, 2, 3]) ∧
    ((share_file dbW "room-1" true shareOkIn).raised = none ∧
      (share_file dbW "room-1" true shareOkIn).closed = false ∧
      (share_file dbW "room-1" true shareOkIn).sent = [] ∧
      ∃ view : MessageView,
        (share_file dbW "room-1" true shareOkIn).broadcasts =
          [(room_group_name "room-1",
            { command := "new_message", author_obj := some aliceU,
              message := view })] ∧
        view.attachment.isSome = true ∧
        ∀ reg : List (String × Nat),
          ∀ s ∈ group_members reg (room_group_name "room-1"),
            (s, ({ command := "new_message", author_obj := some aliceU,
                   message := view } : GroupMsg)) ∈
              group_send reg (room_group_name "room-1")
                { command := "new_message", author_obj := some aliceU,
                  message := view }) :=
  ⟨⟨rfl, by decide, by decide, rfl⟩,
    share_file_commit_broadcasts_to_url_room dbW "room-1" shareOkIn fdBytes
      aliceU roomW [1, 2, 3] rfl (by decide) (by decide) rfl⟩

/-- C8: for every existing room, `fetch_messages` replies with a messages
frame whose `max_pages` equals the ceiling of the room's total message
count divided by the page size; the page size is the source default 20
(`_get_paginated_data`'s `messages_per_page=20`, which `fetch_messages`
always uses). -/
theorem fetch_messages_max_pages_ceil
    (db : DB) (d : InData) (chat : ChatRec)
    (hchat : findChat db d.room_id = some chat) :
    ∃ views, (fetch_messages db d).sent =
      [Frame.messages views
        (CeilDiv.ceilDiv (room_messages db chat.room_id).length 20)] := by
  have hmp : (order_by_created_at_desc (room_messages db chat.room_id)).length
      = (room_messages db chat.room_id).length :=
    length_order_by_created_at_desc _
  simp only [fetch_messages, hchat, _get_paginated_data, hmp]
  exact ⟨_, rfl⟩

/-- Witness for C8: `room-1` holds one message, and the reply carries
`max_pages = ceil(1/20) = 1`. -/
theorem fetch_messages_max_pages_ceil_witness :
    findChat dbMsg fetchPage5In.room_id = some roomW ∧
    ∃ views, (fetch_messages dbMsg fetchPage5In).sent =
      [Frame.messages views
        (CeilDiv.ceilDiv (room_messages dbMsg roomW.room_id).length 20)] :=
  ⟨by decide, fetch_messages_max_pages_ceil dbMsg fetchPage5In roomW (by decide)⟩

/-- C3 (counterexample): `room-1` exists and stores one message
(`max_pages = 1`); requesting page 5 replies with a messages frame carrying
that one message — Django's `Paginator.get_page` turns the `EmptyPage`
error into the last page — not the empty page the claim promises. -/
theorem fetch_messages_overflow_counterexample :
    (fetch_messages dbMsg fetchPage5In).sent = [Frame.messages [msg0View] 1] ∧
    ([msg0View] : List MessageView).length ≠ 0 := by
  decide

/-- C3 (amended): for every existing room holding at least one message and
every page number strictly greater than `max_pages`, `fetch_messages`
replies with a messages frame — not an error — containing the *last* page
(page `max_pages`, as `Paginator.get_page` maps the out-of-range number to
`num_pages`), which is non-empty, not the empty page the spec promises. -/
theorem fetch_messages_overflow_returns_last_page
    (db : DB) (d : InData) (chat : ChatRec) (p : Int)
    (hchat : findChat db d.room_id = some chat)
    (hp : d.page_number = some p)
    (hcount : 1 ≤ (room_messages db chat.room_id).length)
    (hover : ((((room_messages db chat.room_id).length + 20 - 1) / 20 : Nat) : Int) < p) :
    ∃ views,
      (fetch_messages db d).sent =
        [Frame.messages views
          (((room_messages db chat.room_id).length + 20 - 1) / 20)] ∧
      views = (paginator_page_slice
          (order_by_created_at_desc (room_messages db chat.room_id)) 20
          (((room_messages db chat.room_id).length + 20 - 1) / 20)).map
          (message_to_json db) ∧
      views ≠ [] := by
  have hL : (order_by_created_at_desc (room_messages db chat.room_id)).length
      = (room_messages db chat.room_id).length :=
    length_order_by_created_at_desc _
  have hnum : paginator_get_page_number (room_messages db chat.room_id).length 20 p
      = ((room_messages db chat.room_id).length + 20 - 1) / 20 :=
    get_page_number_overflow _ p hcount hover
  refine ⟨_, ?_, rfl, ?_⟩
  · simp only [fetch_messages, hchat, hp, Option.getD_some, _get_paginated_data,
      hL, hnum]
    rfl
  · apply List.length_pos.mp
    rw [List.length_map]
    simp only [paginator_page_slice, List.length_take, List.length_drop, hL]
    omega

/-- Witness for C3 (amended): page 5 of `room-1` (one stored message,
`max_pages = 1`) yields the last page, which is non-empty. -/
theorem fetch_messages_overflow_returns_last_page_witness :
    (findChat dbMsg fetchPage5In.room_id = some roomW ∧
      fetchPage5In.page_number = some 5 ∧
      1 ≤ (room_messages dbMsg roomW.room_id).length ∧
      ((((room_messages dbMsg roomW.room_id).length + 20 - 1) / 20 : Nat) : Int) < 5) ∧
    ∃ views,
      (fetch_messages dbMsg fetchPage5In).sent =
        [Frame.messages views
          (((room_messages dbMsg roomW.room_id).length + 20 - 1) / 20)] ∧
      views = (paginator_page_slice
          (order_by_created_at_desc (room_messages dbMsg roomW.room_id)) 20
          (((room_messages dbMsg roomW.room_id).length + 20 - 1) / 20)).map
          (message_to_json dbMsg) ∧
      views ≠ [] :=
  ⟨⟨by decide, rfl, by decide, by decide⟩,
    fetch_messages_overflow_returns_last_page dbMsg fetchPage5In roomW 5
      (by decide) rfl (by decide) (by decide)⟩
